import Mathlib

/-!
Shallow embedding of the authentication core of the Workaround.io backend
(`src/main.py` together with the schemas in `src/schemas.py`).

The Python code under test:

* `hash_password(password, salt=None)` — PBKDF2-HMAC-SHA256 key derivation
  (100,000 iterations) over the UTF-8 password and the hex-decoded salt,
  generating a fresh 16-byte salt via `secrets.token_hex(16)` when the salt
  argument is absent (or falsy, because of Python's `or`).
* `signup` / `login` — the two auth endpoints, persisting user and session
  records in a document store.

Modelling conventions:

* The PBKDF2-HMAC-SHA256 primitive is a library function external to the
  repository; it is modelled as an arbitrary pure function `kdf` of the
  password bytes, salt bytes and iteration count, passed as a parameter.
  Every theorem holds for every such function.
* Randomness (`secrets.token_hex`) is modelled by an explicit byte stream
  `rng : Nat → Nat`; distinct calls of the Python code receive distinct
  streams.
* The document store is a value of type `Store` (`none` when the database
  handle is unavailable); mutation is explicit state passing: each endpoint
  returns its result together with the resulting store.
* Python exceptions become the `ErrKind` error type of an `Except` result.
-/

/-- Lowercase hex digit for a value `n < 16`, as produced by Python's
`bytes.hex()`. -/
def hexDigit (n : Nat) : Char :=
  if n < 10 then Char.ofNat (48 + n) else Char.ofNat (87 + n)

/-- The two hex digits of one byte, most significant first. -/
def byteToHex (b : Nat) : List Char :=
  [hexDigit (b / 16), hexDigit (b % 16)]

/-- Hex encoding of a byte list: Python's `bytes.hex()`. -/
def bytesToHex (bs : List Nat) : String :=
  String.mk (bs.flatMap byteToHex)

/-- Value of a single hex digit character, `none` if the character is not a
hex digit.  Mirrors the digit classification of Python's `bytes.fromhex`. -/
def hexVal (c : Char) : Option Nat :=
  if 48 ≤ c.toNat ∧ c.toNat ≤ 57 then some (c.toNat - 48)
  else if 97 ≤ c.toNat ∧ c.toNat ≤ 102 then some (c.toNat - 87)
  else if 65 ≤ c.toNat ∧ c.toNat ≤ 70 then some (c.toNat - 55)
  else none

/-- Decode a character list as consecutive hex-digit pairs; `none` on odd
length or any non-hex character. -/
def hexPairsToBytes : List Char → Option (List Nat)
  | [] => some []
  | [_] => none
  | c1 :: c2 :: rest =>
    match hexVal c1, hexVal c2, hexPairsToBytes rest with
    | some h, some l, some bs => some ((16 * h + l) :: bs)
    | _, _, _ => none

/-- Python's `bytes.fromhex`: decode a hex string to its raw bytes, failing
(with a `ValueError` at the call site) on malformed input. -/
def bytesFromHex (s : String) : Option (List Nat) :=
  hexPairsToBytes s.data

/-- Whether every character of the string is a hex digit. -/
def isHexString (s : String) : Bool :=
  s.data.all (fun c => (hexVal c).isSome)

/-- The `n` bytes drawn from the random stream `rng` (each masked to byte
range). -/
def randBytes (rng : Nat → Nat) (n : Nat) : List Nat :=
  (List.range n).map (fun i => rng i % 256)

/-- Python's `secrets.token_hex n` reading its `n` random bytes from `rng`:
the hex encoding of those bytes. -/
def token_hex (rng : Nat → Nat) (n : Nat) : String :=
  bytesToHex (randBytes rng n)

/-- UTF-8 encoding of a string, as `password.encode()` produces. -/
def utf8Bytes (s : String) : List Nat :=
  s.toUTF8.toList.map (fun b => b.toNat)

/-- Abstract key-derivation primitive standing for `hashlib.pbkdf2_hmac
("sha256", ...)`: password bytes → salt bytes → iteration count → derived
key bytes.  The library primitive is a pure function, so it is modelled as
an arbitrary Lean function and every theorem is proved for all of them. -/
def Kdf : Type := List Nat → List Nat → Nat → List Nat

/-- Error kinds of the auth core.  The first three are the `HTTPException`s
raised by `src/main.py`; `validationError` is the kind the spec's error
taxonomy (§7) prescribes for malformed input (no code path produces it);
`valueError` is an unhandled Python `ValueError` escaping `bytes.fromhex`. -/
inductive ErrKind where
  | emailInUse
  | invalidCredentials
  | storageUnavailable
  | validationError
  | valueError
  deriving DecidableEq, Repr

/-- The HTTP status and detail string with which `src/main.py` surfaces each
handled error kind; `none` for kinds that are not raised as a crafted
`HTTPException` (an unhandled `valueError` crashes the handler instead). -/
def httpResponse : ErrKind → Option (Nat × String)
  | .emailInUse => some (400, "Email already in use")
  | .invalidCredentials => some (401, "Invalid credentials")
  | .storageUnavailable => some (500, "Database not available")
  | .validationError => none
  | .valueError => none

/-- Embedding of `hash_password` from `src/main.py` lines 57-60:

    def hash_password(password, salt=None):
        salt = salt or secrets.token_hex(16)
        pwd_hash = hashlib.pbkdf2_hmac("sha256", password.encode(),
                                       bytes.fromhex(salt), 100_000)
        return salt, pwd_hash.hex()

Python's `or` takes the right operand when `salt` is `None` **or** the empty
string (falsy).  `bytes.fromhex` raises `ValueError` on malformed hex, which
the function does not catch. -/
def hash_password (kdf : Kdf) (rng : Nat → Nat) (password : String)
    (saltArg : Option String) : Except ErrKind (String × String) :=
  let salt :=
    match saltArg with
    | some s => if s = "" then token_hex rng 16 else s
    | none => token_hex rng 16
  match bytesFromHex salt with
  | none => .error .valueError
  | some saltRaw => .ok (salt, bytesToHex (kdf (utf8Bytes password) saltRaw 100000))

/-- Schema `User` from `src/schemas.py`: the persisted account record. -/
structure User where
  name : String
  email : String
  password_hash : String
  password_salt : String
  avatar : Option String := none
  role : String := "worker"
  is_active : Bool := true
  deriving DecidableEq, Repr

/-- A session document as inserted into the `session` collection. -/
structure Session where
  user_id : String
  token : String
  created_at : Nat
  deriving DecidableEq, Repr

/-- The document store: the `user` collection (each record paired with its
store-generated `_id`) and the `session` collection. -/
structure Store where
  users : List (String × User)
  sessions : List Session
  deriving DecidableEq, Repr

/-- Request body of `POST /auth/signup`. -/
structure SignupRequest where
  name : String
  email : String
  password : String
  deriving DecidableEq, Repr

/-- Request body of `POST /auth/login`. -/
structure LoginRequest where
  email : String
  password : String
  deriving DecidableEq, Repr

/-- Response body of both auth endpoints. -/
structure AuthResponse where
  token : String
  name : String
  email : String
  deriving DecidableEq, Repr

/-- Modelled from the spec: `create_document` lives in `database.py`, which
is not part of the sources; per §6 it is the store's
`insertOne(collection, record) -> generatedId` contract, and per §7 a
storage-layer fault (unreachable store) surfaces as `StorageUnavailable`.
The generated id is passed in explicitly. -/
def create_document (db : Option Store) (genId : String) (u : User) :
    Except ErrKind (String × Store) :=
  match db with
  | none => .error .storageUnavailable
  | some s => .ok (genId, { s with users := s.users ++ [(genId, u)] })

/-- Embedding of `db["user"].find_one({"email": e}) if db else None` from `signup`
(line 80): first user record whose `email` field equals `e`, `none` when the
handle is unavailable. -/
def existingUser (db : Option Store) (e : String) : Option (String × User) :=
  match db with
  | some s => s.users.find? (fun r => r.2.email == e)
  | none => none

/-- Embedding of `signup` from `src/main.py` lines 78-92.  `rs` feeds the fresh-salt
generation inside `hash_password`, `rt` the `secrets.token_hex(24)` call
minting the session token, `genId` is the store-generated user id and `now`
the current UTC timestamp.  Returns the HTTP-level outcome together with
the store as left behind by the handler. -/
def signup (kdf : Kdf) (rs rt : Nat → Nat) (genId : String) (now : Nat)
    (db : Option Store) (payload : SignupRequest) :
    Except ErrKind AuthResponse × Option Store :=
  if (existingUser db payload.email).isSome then
    (.error .emailInUse, db)
  else
    match hash_password kdf rs payload.password none with
    | .error e => (.error e, db)
    | .ok (salt, pwd_hash) =>
      let user : User :=
        { name := payload.name, email := payload.email,
          password_hash := pwd_hash, password_salt := salt }
      match create_document db genId user with
      | .error e => (.error e, db)
      | .ok (user_id, s1) =>
        let token := token_hex rt 24
        (.ok { token := token, name := user.name, email := user.email },
         some { s1 with sessions := s1.sessions ++
                  [{ user_id := user_id, token := token, created_at := now }] })

/-- Embedding of `login` from `src/main.py` lines 94-111.  `rs` feeds any fresh-salt
generation inside the recomputing `hash_password` call (reached only when
the stored salt is falsy), `rt` the session-token mint, `now` the current
UTC timestamp. -/
def login (kdf : Kdf) (rs rt : Nat → Nat) (now : Nat)
    (db : Option Store) (payload : LoginRequest) :
    Except ErrKind AuthResponse × Option Store :=
  match db with
  | none => (.error .storageUnavailable, none)
  | some s =>
    match s.users.find? (fun r => r.2.email == payload.email) with
    | none => (.error .invalidCredentials, some s)
    | some record =>
      match hash_password kdf rs payload.password (some record.2.password_salt) with
      | .error e => (.error e, some s)
      | .ok (_, verify_hash) =>
        if verify_hash ≠ record.2.password_hash then
          (.error .invalidCredentials, some s)
        else
          let token := token_hex rt 24
          (.ok { token := token, name := record.2.name, email := record.2.email },
           some { s with sessions := s.sessions ++
                    [{ user_id := record.1, token := token, created_at := now }] })

theorem hexVal_hexDigit : ∀ n, n < 16 → hexVal (hexDigit n) = some n := by decide

theorem hexPairsToBytes_flatMap (bs : List Nat) (h : ∀ b ∈ bs, b < 256) :
    hexPairsToBytes (bs.flatMap byteToHex) = some bs := by
  induction bs with
  | nil => rfl
  | cons b rest ih =>
    have hb : b < 256 := h b (List.mem_cons_self _ _)
    have h16 : b / 16 < 16 := by
      have := (Nat.div_lt_iff_lt_mul (by omega : 0 < 16)).mpr (by omega : b < 16 * 16)
      exact this
    have hm : b % 16 < 16 := Nat.mod_lt _ (by omega)
    have hrest := ih (fun x hx => h x (List.mem_cons_of_mem _ hx))
    show hexPairsToBytes (hexDigit (b / 16) :: hexDigit (b % 16) :: rest.flatMap byteToHex) =
      some (b :: rest)
    simp only [hexPairsToBytes, hexVal_hexDigit _ h16, hexVal_hexDigit _ hm, hrest,
      Nat.div_add_mod]

theorem bytesFromHex_bytesToHex (bs : List Nat) (h : ∀ b ∈ bs, b < 256) :
    bytesFromHex (bytesToHex bs) = some bs := by
  simpa [bytesFromHex, bytesToHex] using hexPairsToBytes_flatMap bs h

theorem randBytes_lt (rng : Nat → Nat) (n : Nat) : ∀ b ∈ randBytes rng n, b < 256 := by
  intro b hb
  simp only [randBytes, List.mem_map] at hb
  obtain ⟨i, -, rfl⟩ := hb
  exact Nat.mod_lt _ (by omega)

theorem bytesFromHex_token_hex (rng : Nat → Nat) (n : Nat) :
    bytesFromHex (token_hex rng n) = some (randBytes rng n) :=
  bytesFromHex_bytesToHex _ (randBytes_lt rng n)

theorem length_bytesToHex (bs : List Nat) : (bytesToHex bs).length = 2 * bs.length := by
  induction bs with
  | nil => rfl
  | cons b rest ih =>
    simp only [bytesToHex, String.length, List.flatMap_cons, byteToHex] at ih ⊢
    simp [ih]
    omega

theorem token_hex_length (rng : Nat → Nat) (n : Nat) : (token_hex rng n).length = 2 * n := by
  simp [token_hex, length_bytesToHex, randBytes]

theorem hexVal_isSome_hexDigit : ∀ n, n < 16 → (hexVal (hexDigit n)).isSome = true := by
  decide

theorem isHexString_bytesToHex (bs : List Nat) (h : ∀ b ∈ bs, b < 256) :
    isHexString (bytesToHex bs) = true := by
  induction bs with
  | nil => rfl
  | cons b rest ih =>
    have hb : b < 256 := h b (List.mem_cons_self _ _)
    have h16 : b / 16 < 16 := (Nat.div_lt_iff_lt_mul (by omega : 0 < 16)).mpr (by omega)
    have hm : b % 16 < 16 := Nat.mod_lt _ (by omega)
    have hrest := ih (fun x hx => h x (List.mem_cons_of_mem _ hx))
    show ((hexDigit (b / 16) :: hexDigit (b % 16) :: rest.flatMap byteToHex).all
      (fun c => (hexVal c).isSome)) = true
    simp only [List.all_cons, Bool.and_eq_true]
    exact ⟨hexVal_isSome_hexDigit _ h16, hexVal_isSome_hexDigit _ hm, hrest⟩

theorem isHexString_token_hex (rng : Nat → Nat) (n : Nat) :
    isHexString (token_hex rng n) = true :=
  isHexString_bytesToHex _ (randBytes_lt rng n)

theorem hash_password_none (kdf : Kdf) (rng : Nat → Nat) (P : String) :
    hash_password kdf rng P none =
      .ok (token_hex rng 16, bytesToHex (kdf (utf8Bytes P) (randBytes rng 16) 100000)) := by
  simp [hash_password, bytesFromHex_token_hex]

theorem hash_password_some (kdf : Kdf) (rng : Nat → Nat) (P S : String) (bs : List Nat)
    (hne : S ≠ "") (hhex : bytesFromHex S = some bs) :
    hash_password kdf rng P (some S) =
      .ok (S, bytesToHex (kdf (utf8Bytes P) bs 100000)) := by
  simp [hash_password, hne, hhex]

/-- A constant key-derivation function, used to instantiate theorems at
concrete inputs. -/
def kdfConst : Kdf := fun _ _ _ => [1]

/-- A key-derivation function returning the salt bytes, used to instantiate
theorems at concrete inputs. -/
def kdfSalt : Kdf := fun _ s _ => s

/-- The all-zero random stream. -/
def rngZero : Nat → Nat := fun _ => 0

/-- The all-one random stream. -/
def rngOne : Nat → Nat := fun _ => 1

/-- C2: `hash_password` returns the kdf-derived key (PBKDF2-HMAC-SHA256 in
the source, 100,000 iterations) over the UTF-8 password and the bytes
decoded from the hex salt, hex-encoded; with the salt argument omitted the
returned salt is the hex encoding of 16 fresh random bytes: a 32-character
hex string. -/
theorem hash_password_kdf_spec (kdf : Kdf) (rng : Nat → Nat) (P : String) :
    (∀ sArg salt h, hash_password kdf rng P sArg = .ok (salt, h) →
      ∃ bs, bytesFromHex salt = some bs ∧ h = bytesToHex (kdf (utf8Bytes P) bs 100000)) ∧
    (hash_password kdf rng P none =
        .ok (token_hex rng 16, bytesToHex (kdf (utf8Bytes P) (randBytes rng 16) 100000)) ∧
      (token_hex rng 16).length = 32 ∧ isHexString (token_hex rng 16) = true) := by
  refine ⟨?_, hash_password_none kdf rng P, token_hex_length rng 16, isHexString_token_hex rng 16⟩
  intro sArg salt h hok
  cases sArg with
  | none =>
    rw [hash_password_none] at hok
    simp only [Except.ok.injEq, Prod.mk.injEq] at hok
    exact ⟨randBytes rng 16, hok.1 ▸ bytesFromHex_token_hex rng 16, hok.2.symm⟩
  | some S =>
    by_cases hS : S = ""
    · subst hS
      have hsame : hash_password kdf rng P (some "") = hash_password kdf rng P none := by
        simp [hash_password]
      rw [hsame, hash_password_none] at hok
      simp only [Except.ok.injEq, Prod.mk.injEq] at hok
      exact ⟨randBytes rng 16, hok.1 ▸ bytesFromHex_token_hex rng 16, hok.2.symm⟩
    · simp only [hash_password, if_neg hS] at hok
      obtain hbs | ⟨bs, hbs⟩ := Option.eq_none_or_eq_some (bytesFromHex S)
      · rw [hbs] at hok
        exact absurd hok (by simp)
      · rw [hbs] at hok
        simp only [Except.ok.injEq, Prod.mk.injEq] at hok
        exact ⟨bs, hok.1 ▸ hbs, hok.2.symm⟩

theorem hash_password_kdf_spec_witness :
    (∃ bs, bytesFromHex "00" = some bs ∧
      "01" = bytesToHex (kdfConst (utf8Bytes "pw") bs 100000)) ∧
    (hash_password kdfConst rngZero "pw" none =
        .ok (token_hex rngZero 16,
          bytesToHex (kdfConst (utf8Bytes "pw") (randBytes rngZero 16) 100000)) ∧
      (token_hex rngZero 16).length = 32 ∧ isHexString (token_hex rngZero 16) = true) :=
  ⟨(hash_password_kdf_spec kdfConst rngZero "pw").1 (some "00") "00" "01" rfl,
   (hash_password_kdf_spec kdfConst rngZero "pw").2⟩

/-- C6 (code behaviour at the failing input): on a malformed hex salt,
`hash_password` fails with an unhandled Python `ValueError` escaping
`bytes.fromhex` — not with the `ValidationError` kind the spec prescribes
(no code path produces that kind, and no crafted HTTP response exists for
the escaped exception). -/
theorem hash_password_malformed_salt_crashes :
    hash_password kdfConst rngZero "pw" (some "zz") = .error .valueError ∧
    ErrKind.valueError ≠ ErrKind.validationError ∧
    httpResponse .valueError = none :=
  ⟨rfl, by decide, rfl⟩

/-- C7: with the document store unreachable (`db is None`), both endpoints
fail at once with the `StorageUnavailable` kind and perform no retry and no
write. -/
theorem storage_unavailable_no_retry (kdf : Kdf) (rs rt : Nat → Nat) (genId : String)
    (now : Nat) (p : SignupRequest) (q : LoginRequest) :
    signup kdf rs rt genId now none p = (.error .storageUnavailable, none) ∧
    login kdf rs rt now none q = (.error .storageUnavailable, none) := by
  constructor
  · simp [signup, existingUser, hash_password_none, create_document]
  · simp [login]

/-- C8 (counterexample): with the empty string — a supplied salt — the two
components of `hash_password`'s result depend on the random stream, because
Python's `salt or secrets.token_hex(16)` treats `""` as absent: two runs
disagree, refuting determinism for every supplied salt. -/
theorem hash_password_empty_salt_nondet :
    hash_password kdfSalt rngZero "secret" (some "") =
      .ok ("00000000000000000000000000000000", "00000000000000000000000000000000") ∧
    hash_password kdfSalt rngOne "secret" (some "") =
      .ok ("01010101010101010101010101010101", "01010101010101010101010101010101") ∧
    ("00000000000000000000000000000000" : String) ≠ "01010101010101010101010101010101" :=
  ⟨rfl, rfl, by decide⟩

/-- C8 (amended): for every non-empty supplied salt, `hash_password` is
deterministic — its result does not depend on the random stream, and it
touches no store (its type reads and writes no `Store`). -/
theorem hash_password_deterministic (kdf : Kdf) (rng1 rng2 : Nat → Nat) (P S : String)
    (hne : S ≠ "") :
    hash_password kdf rng1 P (some S) = hash_password kdf rng2 P (some S) := by
  simp [hash_password, hne]

theorem hash_password_deterministic_witness :
    ("ab" : String) ≠ "" ∧
    hash_password kdfSalt rngZero "x" (some "ab") =
      hash_password kdfSalt rngOne "x" (some "ab") :=
  ⟨by decide, hash_password_deterministic kdfSalt rngZero rngOne "x" "ab" (by decide)⟩

/-- C1 (counterexample): the empty string is well-formed hex (it decodes to
zero bytes), yet recomputing the hash of password `"pw"` with salt `""` — as
verification does — yields a value different from the stored hash, because
each run generates a fresh random salt: the login comparison would reject. -/
theorem verify_empty_salt_fails :
    bytesFromHex "" = some [] ∧
    hash_password kdfSalt rngZero "pw" (some "") =
      .ok ("00000000000000000000000000000000", "00000000000000000000000000000000") ∧
    hash_password kdfSalt rngOne "pw" (some "") =
      .ok ("01010101010101010101010101010101", "01010101010101010101010101010101") ∧
    ("01010101010101010101010101010101" : String) ≠ "00000000000000000000000000000000" :=
  ⟨rfl, rfl, rfl, by decide⟩

/-- The user record `signup` builds and persists: hash and salt from
`hash_password` with the salt argument absent, remaining fields from the
request and the schema defaults. -/
def signupUser (kdf : Kdf) (rs : Nat → Nat) (p : SignupRequest) : User :=
  { name := p.name, email := p.email,
    password_hash := bytesToHex (kdf (utf8Bytes p.password) (randBytes rs 16) 100000),
    password_salt := token_hex rs 16 }

theorem signup_eq_of_not_exists (kdf : Kdf) (rs rt : Nat → Nat) (gid : String) (now : Nat)
    (s0 : Store) (p : SignupRequest)
    (hfind : s0.users.find? (fun r => r.2.email == p.email) = none) :
    signup kdf rs rt gid now (some s0) p =
      (.ok ⟨token_hex rt 24, p.name, p.email⟩,
       some { users := s0.users ++ [(gid, signupUser kdf rs p)],
              sessions := s0.sessions ++ [⟨gid, token_hex rt 24, now⟩] }) := by
  simp [signup, existingUser, hfind, hash_password_none, create_document, signupUser]

theorem signup_ok_inv (kdf : Kdf) (rs rt : Nat → Nat) (gid : String) (now : Nat)
    (s0 : Store) (p : SignupRequest) (r : AuthResponse) (db' : Option Store)
    (h : signup kdf rs rt gid now (some s0) p = (.ok r, db')) :
    s0.users.find? (fun r => r.2.email == p.email) = none ∧
    r = ⟨token_hex rt 24, p.name, p.email⟩ ∧
    db' = some { users := s0.users ++ [(gid, signupUser kdf rs p)],
                 sessions := s0.sessions ++ [⟨gid, token_hex rt 24, now⟩] } := by
  obtain hfind | ⟨rec, hfind⟩ :=
    Option.eq_none_or_eq_some (s0.users.find? (fun r => r.2.email == p.email))
  · rw [signup_eq_of_not_exists kdf rs rt gid now s0 p hfind] at h
    simp only [Prod.mk.injEq, Except.ok.injEq] at h
    exact ⟨hfind, h.1.symm, h.2.symm⟩
  · have hsome : (existingUser (some s0) p.email).isSome := by
      simp [existingUser, hfind]
    rw [signup, if_pos hsome] at h
    exact absurd h (by simp)

theorem signup_err_inv (kdf : Kdf) (rs rt : Nat → Nat) (gid : String) (now : Nat)
    (s0 : Store) (p : SignupRequest) (e : ErrKind) (db' : Option Store)
    (h : signup kdf rs rt gid now (some s0) p = (.error e, db')) :
    db' = some s0 := by
  obtain hfind | ⟨rec, hfind⟩ :=
    Option.eq_none_or_eq_some (s0.users.find? (fun r => r.2.email == p.email))
  · rw [signup_eq_of_not_exists kdf rs rt gid now s0 p hfind] at h
    exact absurd h (by simp)
  · have hsome : (existingUser (some s0) p.email).isSome := by
      simp [existingUser, hfind]
    rw [signup, if_pos hsome] at h
    simp only [Prod.mk.injEq] at h
    exact h.2.symm

theorem except_cases {ε α : Type} (x : Except ε α) :
    (∃ e, x = .error e) ∨ ∃ a, x = .ok a := by
  cases x with
  | error e => exact Or.inl ⟨e, rfl⟩
  | ok a => exact Or.inr ⟨a, rfl⟩

theorem login_ok_inv (kdf : Kdf) (rs rt : Nat → Nat) (now : Nat)
    (s : Store) (q : LoginRequest) (resp : AuthResponse) (db' : Option Store)
    (h : login kdf rs rt now (some s) q = (.ok resp, db')) :
    ∃ uid u, s.users.find? (fun r => r.2.email == q.email) = some (uid, u) ∧
      resp = ⟨token_hex rt 24, u.name, u.email⟩ ∧
      db' = some { s with sessions := s.sessions ++ [⟨uid, token_hex rt 24, now⟩] } := by
  obtain hfind | ⟨⟨uid, u⟩, hfind⟩ :=
    Option.eq_none_or_eq_some (s.users.find? (fun r => r.2.email == q.email))
  · rw [login] at h
    rw [hfind] at h
    exact absurd h (by simp)
  · simp only [login, hfind] at h
    obtain ⟨e, hhp⟩ | ⟨⟨slt, vh⟩, hhp⟩ :=
      except_cases (hash_password kdf rs q.password (some u.password_salt))
    · simp only [hhp] at h
      exact absurd h (by simp)
    · simp only [hhp] at h
      by_cases hne : vh ≠ u.password_hash
      · rw [if_pos hne] at h
        exact absurd h (by simp)
      · rw [if_neg hne] at h
        simp only [Prod.mk.injEq, Except.ok.injEq] at h
        exact ⟨uid, u, hfind, h.1.symm, h.2.symm⟩

/-- C1 (amended): for every password and every non-empty well-formed hex
salt, the hash stored by `hash_password` is recomputed identically by
`login` (the derivation is independent of the random stream), so the login
comparison accepts: login succeeds, mints a token and persists a session. -/
theorem login_accepts_hashed_password (kdf : Kdf) (rs rs2 rt : Nat → Nat) (now : Nat)
    (P S : String) (bs : List Nat) (hne : S ≠ "") (hhex : bytesFromHex S = some bs)
    (s : Store) (uid : String) (u : User) (e : String)
    (hfind : s.users.find? (fun r => r.2.email == e) = some (uid, u))
    (hsalt : u.password_salt = S)
    (hstored : hash_password kdf rs P (some S) = .ok (S, u.password_hash)) :
    login kdf rs2 rt now (some s) ⟨e, P⟩ =
      (.ok ⟨token_hex rt 24, u.name, u.email⟩,
       some { s with sessions := s.sessions ++ [⟨uid, token_hex rt 24, now⟩] }) := by
  have hpair := Except.ok.inj ((hash_password_some kdf rs P S bs hne hhex).symm.trans hstored)
  have hhash : bytesToHex (kdf (utf8Bytes P) bs 100000) = u.password_hash :=
    congrArg Prod.snd hpair
  have hrecomp : hash_password kdf rs2 P (some u.password_salt) =
      .ok (S, u.password_hash) := by
    rw [hsalt, hash_password_some kdf rs2 P S bs hne hhex, hhash]
  simp only [login, hfind, hrecomp, ne_eq, not_true_eq_false, if_false, ite_not]

/-- A concrete account fixture whose hash was produced with `kdfSalt` and
salt `"00"`. -/
def userA : User :=
  { name := "n", email := "e@x", password_hash := "00", password_salt := "00" }

/-- A concrete one-account store fixture. -/
def storeA : Store := { users := [("id1", userA)], sessions := [] }

theorem login_accepts_hashed_password_witness :
    login kdfSalt rngZero rngOne 5 (some storeA) ⟨"e@x", "pw"⟩ =
      (.ok ⟨token_hex rngOne 24, userA.name, userA.email⟩,
       some { storeA with
              sessions := storeA.sessions ++ [⟨"id1", token_hex rngOne 24, 5⟩] }) :=
  login_accepts_hashed_password kdfSalt rngZero rngZero rngOne 5 "pw" "00" [0]
    (by decide) rfl storeA "id1" userA "e@x" rfl rfl rfl

/-- C3: when a signup succeeded for some email, a second signup with the
same email fails with the `EmailInUse` kind and leaves the store exactly as
it was: no user record and no session record is written. -/
theorem signup_duplicate_email (kdf kdf2 : Kdf) (rs rt rs2 rt2 : Nat → Nat)
    (gid gid2 : String) (now now2 : Nat) (s0 s1 : Store) (p1 p2 : SignupRequest)
    (r1 : AuthResponse)
    (h1 : signup kdf rs rt gid now (some s0) p1 = (.ok r1, some s1))
    (he : p2.email = p1.email) :
    signup kdf2 rs2 rt2 gid2 now2 (some s1) p2 = (.error .emailInUse, some s1) := by
  obtain ⟨hfind, -, hs1⟩ := signup_ok_inv kdf rs rt gid now s0 p1 r1 (some s1) h1
  have hs1' := Option.some.inj hs1
  have hsome : (existingUser (some s1) p2.email).isSome := by
    simp only [existingUser, hs1', List.find?_append]
    have hlast : List.find? (fun r => r.2.email == p2.email) [(gid, signupUser kdf rs p1)] =
        some (gid, signupUser kdf rs p1) := by
      simp [signupUser, he]
    rw [hlast]
    simp [Option.isSome_or]
  rw [signup, if_pos hsome]

/-- C4: a login whose email is unknown and a login whose recomputed hash
differs from the stored one fail with the same single error value
`InvalidCredentials` (surfaced as the same 401 response), and neither
touches the store: no session is created. -/
theorem login_invalid_credentials (kdf : Kdf) (rs rt : Nat → Nat) (now : Nat)
    (s : Store) (p : LoginRequest) :
    (s.users.find? (fun r => r.2.email == p.email) = none →
      login kdf rs rt now (some s) p = (.error .invalidCredentials, some s)) ∧
    (∀ uid u slt h, s.users.find? (fun r => r.2.email == p.email) = some (uid, u) →
      hash_password kdf rs p.password (some u.password_salt) = .ok (slt, h) →
      h ≠ u.password_hash →
      login kdf rs rt now (some s) p = (.error .invalidCredentials, some s)) ∧
    httpResponse .invalidCredentials = some (401, "Invalid credentials") := by
  refine ⟨?_, ?_, rfl⟩
  · intro hfind
    simp [login, hfind]
  · intro uid u slt h hfind hhp hne
    simp only [login, hfind, hhp]
    rw [if_pos hne]

/-- C5: every successful signup and every successful login returns the
freshly minted token — the hex encoding of 24 random bytes, 48 hex
characters — and appends exactly one session record pairing that token with
the account id and the current timestamp. -/
theorem session_token_mint (kdf : Kdf) (rs rt : Nat → Nat) (gid : String) (now : Nat)
    (s : Store) (p : SignupRequest) (q : LoginRequest) :
    (∀ resp s', signup kdf rs rt gid now (some s) p = (.ok resp, some s') →
      resp.token = token_hex rt 24 ∧ resp.token.length = 48 ∧
      isHexString resp.token = true ∧
      s'.sessions = s.sessions ++ [⟨gid, resp.token, now⟩]) ∧
    (∀ resp s', login kdf rs rt now (some s) q = (.ok resp, some s') →
      resp.token = token_hex rt 24 ∧ resp.token.length = 48 ∧
      isHexString resp.token = true ∧
      ∃ uid u, s.users.find? (fun r => r.2.email == q.email) = some (uid, u) ∧
        s'.sessions = s.sessions ++ [⟨uid, resp.token, now⟩]) := by
  constructor
  · intro resp s' h
    obtain ⟨-, hr, hs'⟩ := signup_ok_inv kdf rs rt gid now s p resp (some s') h
    have hs'' := Option.some.inj hs'
    subst hr hs''
    exact ⟨rfl, token_hex_length rt 24, isHexString_token_hex rt 24, rfl⟩
  · intro resp s' h
    obtain ⟨uid, u, hfind, hr, hs'⟩ := login_ok_inv kdf rs rt now s q resp (some s') h
    have hs'' := Option.some.inj hs'
    subst hr hs''
    exact ⟨rfl, token_hex_length rt 24, isHexString_token_hex rt 24, uid, u, hfind, rfl⟩

/-- C9: the only account record any operation writes is the one signup
persists, and it consists exactly of the request's name and email, the
derived hash, the generated salt and the schema defaults — the `User`
schema has no plaintext-password field; signup on error and login (in every
outcome) leave the user collection untouched, so accounts are never updated
or deleted. -/
theorem user_records_only_hashed (kdf : Kdf) (rs rt : Nat → Nat) (gid : String)
    (now : Nat) (s : Store) (p : SignupRequest) (q : LoginRequest) :
    (∀ resp s', signup kdf rs rt gid now (some s) p = (.ok resp, some s') →
      s'.users = s.users ++ [(gid,
        { name := p.name, email := p.email,
          password_hash := bytesToHex (kdf (utf8Bytes p.password) (randBytes rs 16) 100000),
          password_salt := token_hex rs 16,
          avatar := none, role := "worker", is_active := true })]) ∧
    (∀ e db', signup kdf rs rt gid now (some s) p = (.error e, db') → db' = some s) ∧
    (∀ res db', login kdf rs rt now (some s) q = (res, db') →
      ∃ s'', db' = some s'' ∧ s''.users = s.users) := by
  refine ⟨?_, ?_, ?_⟩
  · intro resp s' h
    obtain ⟨-, -, hs'⟩ := signup_ok_inv kdf rs rt gid now s p resp (some s') h
    have hs'' := Option.some.inj hs'
    subst hs''
    rfl
  · intro e db' h
    exact signup_err_inv kdf rs rt gid now s p e db' h
  · intro res db' h
    obtain hfind | ⟨⟨uid, u⟩, hfind⟩ :=
      Option.eq_none_or_eq_some (s.users.find? (fun r => r.2.email == q.email))
    · simp only [login, hfind] at h
      exact ⟨s, (congrArg Prod.snd h).symm, rfl⟩
    · simp only [login, hfind] at h
      obtain ⟨e, hhp⟩ | ⟨⟨slt, vh⟩, hhp⟩ :=
        except_cases (hash_password kdf rs q.password (some u.password_salt))
      · simp only [hhp] at h
        exact ⟨s, (congrArg Prod.snd h).symm, rfl⟩
      · simp only [hhp] at h
        by_cases hne : vh ≠ u.password_hash
        · rw [if_pos hne] at h
          exact ⟨s, (congrArg Prod.snd h).symm, rfl⟩
        · rw [if_neg hne] at h
          exact ⟨{ s with sessions := s.sessions ++ [⟨uid, token_hex rt 24, now⟩] },
            (congrArg Prod.snd h).symm, rfl⟩

/-- C10: `login` never consults `is_active`: a stored account with
`is_active = false` and a matching recomputed hash still logs in, receives
a fresh token and gets a session persisted. -/
theorem login_ignores_is_active (kdf : Kdf) (rs rt : Nat → Nat) (now : Nat)
    (s : Store) (uid : String) (u : User) (e P slt : String)
    (hfind : s.users.find? (fun r => r.2.email == e) = some (uid, u))
    (_h_inactive : u.is_active = false)
    (hhash : hash_password kdf rs P (some u.password_salt) = .ok (slt, u.password_hash)) :
    login kdf rs rt now (some s) ⟨e, P⟩ =
      (.ok ⟨token_hex rt 24, u.name, u.email⟩,
       some { s with sessions := s.sessions ++ [⟨uid, token_hex rt 24, now⟩] }) := by
  simp only [login, hfind, hhash, ne_eq, not_true_eq_false, if_false, ite_not]

/-- A concrete signup request fixture. -/
def reqA : SignupRequest := ⟨"n", "a@x", "pw"⟩

/-- A concrete signup request fixture sharing `reqA`'s email. -/
def reqB : SignupRequest := ⟨"m", "a@x", "qq"⟩

/-- The store left behind by a successful signup of `reqA` on the empty
store. -/
def storeAfterA : Store :=
  { users := [("id1", signupUser kdfConst rngZero reqA)],
    sessions := [⟨"id1", token_hex rngOne 24, 7⟩] }

theorem signup_duplicate_email_witness :
    signup kdfConst rngZero rngOne "id2" 8 (some storeAfterA) reqB =
      (.error .emailInUse, some storeAfterA) :=
  signup_duplicate_email kdfConst kdfConst rngZero rngOne rngZero rngOne "id1" "id2" 7 8
    ⟨[], []⟩ storeAfterA reqA reqB ⟨token_hex rngOne 24, "n", "a@x"⟩ rfl rfl

theorem login_invalid_credentials_witness :
    login kdfConst rngZero rngOne 3 (some storeA) ⟨"b@x", "pw"⟩ =
      (.error .invalidCredentials, some storeA) ∧
    login kdfConst rngZero rngOne 3 (some storeA) ⟨"e@x", "wrong"⟩ =
      (.error .invalidCredentials, some storeA) ∧
    httpResponse .invalidCredentials = some (401, "Invalid credentials") :=
  ⟨(login_invalid_credentials kdfConst rngZero rngOne 3 storeA ⟨"b@x", "pw"⟩).1 rfl,
   (login_invalid_credentials kdfConst rngZero rngOne 3 storeA ⟨"e@x", "wrong"⟩).2.1
     "id1" userA "00" "01" rfl rfl (by decide),
   (login_invalid_credentials kdfConst rngZero rngOne 3 storeA ⟨"e@x", "wrong"⟩).2.2⟩

/-- The store left behind by a successful signup of `reqA` (with `kdfSalt`)
on the empty store at time 9. -/
def storeAfterA9 : Store :=
  { users := [("id9", signupUser kdfSalt rngZero reqA)],
    sessions := [⟨"id9", token_hex rngOne 24, 9⟩] }

theorem session_token_mint_witness :
    ((⟨token_hex rngOne 24, "n", "a@x"⟩ : AuthResponse).token = token_hex rngOne 24 ∧
      (⟨token_hex rngOne 24, "n", "a@x"⟩ : AuthResponse).token.length = 48 ∧
      isHexString (⟨token_hex rngOne 24, "n", "a@x"⟩ : AuthResponse).token = true ∧
      storeAfterA9.sessions =
        (⟨[], []⟩ : Store).sessions ++ [⟨"id9", token_hex rngOne 24, 9⟩]) ∧
    ((⟨token_hex rngOne 24, userA.name, userA.email⟩ : AuthResponse).token =
        token_hex rngOne 24 ∧
      (⟨token_hex rngOne 24, userA.name, userA.email⟩ : AuthResponse).token.length = 48 ∧
      isHexString (⟨token_hex rngOne 24, userA.name, userA.email⟩ : AuthResponse).token
        = true ∧
      ∃ uid u, storeA.users.find? (fun r => r.2.email == "e@x") = some (uid, u) ∧
        ({ storeA with sessions := storeA.sessions ++
            [⟨"id1", token_hex rngOne 24, 9⟩] } : Store).sessions =
          storeA.sessions ++ [⟨uid, token_hex rngOne 24, 9⟩]) :=
  ⟨(session_token_mint kdfSalt rngZero rngOne "id9" 9 ⟨[], []⟩ reqA ⟨"e@x", "pw"⟩).1
     ⟨token_hex rngOne 24, "n", "a@x"⟩ storeAfterA9 rfl,
   (session_token_mint kdfSalt rngZero rngOne "id1" 9 storeA reqA ⟨"e@x", "pw"⟩).2
     ⟨token_hex rngOne 24, userA.name, userA.email⟩
     { storeA with sessions := storeA.sessions ++ [⟨"id1", token_hex rngOne 24, 9⟩] } rfl⟩

/-- A signup request whose email is free in `storeA`. -/
def reqC : SignupRequest := ⟨"n2", "b@x", "pw2"⟩

/-- A signup request whose email collides with `storeA`'s account. -/
def reqD : SignupRequest := ⟨"x", "e@x", "pw"⟩

theorem user_records_only_hashed_witness :
    ({ users := storeA.users ++ [("id9", signupUser kdfSalt rngZero reqC)],
       sessions := storeA.sessions ++ [⟨"id9", token_hex rngOne 24, 9⟩] } : Store).users =
      storeA.users ++ [("id9",
        { name := reqC.name, email := reqC.email,
          password_hash :=
            bytesToHex (kdfSalt (utf8Bytes reqC.password) (randBytes rngZero 16) 100000),
          password_salt := token_hex rngZero 16,
          avatar := none, role := "worker", is_active := true })] ∧
    (some storeA = some storeA) ∧
    (∃ s'', some ({ storeA with sessions := storeA.sessions ++
        [⟨"id1", token_hex rngOne 24, 9⟩] } : Store) = some s'' ∧
      s''.users = storeA.users) :=
  ⟨(user_records_only_hashed kdfSalt rngZero rngOne "id9" 9 storeA reqC ⟨"e@x", "pw"⟩).1
     ⟨token_hex rngOne 24, "n2", "b@x"⟩
     { users := storeA.users ++ [("id9", signupUser kdfSalt rngZero reqC)],
       sessions := storeA.sessions ++ [⟨"id9", token_hex rngOne 24, 9⟩] } rfl,
   (user_records_only_hashed kdfSalt rngZero rngOne "id9" 9 storeA reqD ⟨"e@x", "pw"⟩).2.1
     .emailInUse (some storeA) rfl,
   (user_records_only_hashed kdfSalt rngZero rngOne "id9" 9 storeA reqC ⟨"e@x", "pw"⟩).2.2
     (.ok ⟨token_hex rngOne 24, userA.name, userA.email⟩)
     (some { storeA with sessions := storeA.sessions ++ [⟨"id1", token_hex rngOne 24, 9⟩] })
     rfl⟩

/-- A deactivated account fixture whose hash was produced with `kdfSalt`
and salt `"00"`. -/
def userB : User :=
  { name := "nb", email := "i@x", password_hash := "00", password_salt := "00",
    is_active := false }

/-- A one-account store holding only the deactivated `userB`. -/
def storeB : Store := { users := [("id3", userB)], sessions := [] }

theorem login_ignores_is_active_witness :
    login kdfSalt rngZero rngOne 4 (some storeB) ⟨"i@x", "pw"⟩ =
      (.ok ⟨token_hex rngOne 24, userB.name, userB.email⟩,
       some { storeB with sessions := storeB.sessions ++
                [⟨"id3", token_hex rngOne 24, 4⟩] }) :=
  login_ignores_is_active kdfSalt rngZero rngOne 4 storeB "id3" userB "i@x" "pw" "00"
    rfl rfl rfl
